import Mathlib

/-
Shallow embedding of the cb_superlinked A/B-testing chatbot core
(query.py, analytics.py, intent_router.py, data_processing.py).

Modelling conventions:
* Python strings are Lean `String`; `str.lower` is modelled ASCII-only
  (no claim input contains an uppercase non-ASCII letter).
* Python floats are `ℚ`; the IEEE value NaN, which arises from pandas
  means over empty frames and from scipy on degenerate input, is
  modelled as the `none` of `Option ℚ` at every place it can occur.
* pandas DataFrames are `List Row` in row order.
* scipy's special-function numerics (t-distribution and χ²-distribution
  tail probabilities) are deterministic external collaborators and are
  passed in as a `NumLib` record of functions.
-/

/- Batteries marks the ℚ field operations irreducible, which blocks
evaluation of concrete witnesses; restore the default transparency for
this development. -/

attribute [local semireducible] Rat.mul Rat.add Rat.sub Rat.inv

namespace CbSuperlinked

/-- Python whitespace characters recognised by str.strip (ASCII subset). -/
def pyWs (c : Char) : Bool :=
  c = ' ' || c = '\t' || c = '\n' || c = '\r' || c = '\x0b' || c = '\x0c'

/-- Model of Python str.strip(): remove leading and trailing whitespace. -/
def pyStrip (s : String) : String :=
  ⟨((s.toList.dropWhile pyWs).reverse.dropWhile pyWs).reverse⟩

/-- Model of Python str.lower() (ASCII). -/
def pyLower (s : String) : String := ⟨s.toList.map Char.toLower⟩

/-- Does the needle occur at the very start of the haystack? -/
def listStartsWith : List Char → List Char → Bool
  | [], _ => true
  | _ :: _, [] => false
  | a :: as, b :: bs => a = b && listStartsWith as bs

/-- Does the needle occur contiguously anywhere inside the haystack? -/
def listContains (n : List Char) : List Char → Bool
  | [] => n.isEmpty
  | c :: cs => listStartsWith n (c :: cs) || listContains n cs

/-- Model of the Python substring test needle in haystack. -/
def pyIn (needle hay : String) : Bool := listContains needle.toList hay.toList

/-- Model of Python str.capitalize(): first character upper-cased, rest lowered. -/
def pyCapitalize (s : String) : String :=
  match s.toList with
  | [] => ""
  | c :: cs => ⟨Char.toUpper c :: cs.map Char.toLower⟩

/-- One dataset row (one store × experiment observation): the columns of
tiendas_detalle.csv as loaded by ABTestingDataProcessor. -/
structure Row where
  experimento : String
  tienda_id : String
  region : String
  tipo_tienda : String
  usuarios : Nat
  conversiones : Nat
  revenue : ℚ
  conversion_rate : ℚ
deriving DecidableEq, Repr

/-- The field-equality dict produced by extract_filters_from_query
(keys experimento / region / tipo_tienda, each set at most once). -/
structure Filters where
  experimento : Option String := none
  region : Option String := none
  tipo_tienda : Option String := none
deriving DecidableEq, Repr

/-- The region keyword list of extract_filters_from_query, in source order. -/
def regionKeywords : List String := ["este", "norte", "sur", "oeste"]

/-- The region-detection loop of extract_filters_from_query: the first
keyword contained in the lowered query wins and is capitalized. -/
def detectRegion : List String → String → Option String
  | [], _ => none
  | r :: rs, ql => if pyIn r ql then some (pyCapitalize r) else detectRegion rs ql

/-- ABTestingQueryEngine.extract_filters_from_query (query.py lines 187-213). -/
def extract_filters_from_query (query : String) : Filters :=
  let ql := pyLower query
  let experimento :=
    if pyIn "control" ql then some "Control"
    else if pyIn "experimento" ql || pyIn "variante" ql then some "Experimento_A"
    else none
  let region := detectRegion regionKeywords ql
  let tipo :=
    if pyIn "mall" ql then some "Mall"
    else if pyIn "street" ql || pyIn "calle" ql then some "Street"
    else if pyIn "outlet" ql then some "Outlet"
    else none
  { experimento := experimento, region := region, tipo_tienda := tipo }

/-! ## get_top_performers: pandas sort_values model -/

/-- A pandas cell value: the dataset columns are either string or numeric. -/
inductive Fv where
  | str (s : String)
  | num (q : ℚ)
deriving DecidableEq, Repr

/-- Strict code-point comparison of strings (Python str <), spelled out
on character lists so it evaluates. -/
def charListLt : List Char → List Char → Bool
  | [], [] => false
  | [], _ :: _ => true
  | _ :: _, [] => false
  | a :: as, b :: bs =>
    if a.toNat < b.toNat then true
    else if b.toNat < a.toNat then false
    else charListLt as bs

/-- numpy's strict TYPE_LT comparison on cell values: numeric columns by
ℚ, string columns lexicographically.  A DataFrame column is homogeneous,
so the two cross-constructor cases are never exercised by a real sort. -/
def fvLt : Fv → Fv → Bool
  | .num a, .num b => a < b
  | .str a, .str b => charListLt a.toList b.toList
  | .num _, .str _ => true
  | .str _, .num _ => false

/-- Lift of fvLt to the optional cell values produced by column lookup
(none, meaning a missing column, never reaches a sort). -/
def ofvLt : Option Fv → Option Fv → Bool
  | some a, some b => fvLt a b
  | _, _ => false

/-- The columns of the dataset DataFrame, in CSV order. -/
def dfColumns : List String :=
  ["tienda_id", "experimento", "region", "tipo_tienda",
   "usuarios", "conversiones", "revenue", "conversion_rate"]

/-- The value of a named DataFrame column on a row; none when the name is
not a column (where pandas raises a KeyError). -/
def colVal (r : Row) : String → Option Fv
  | "tienda_id" => some (.str r.tienda_id)
  | "experimento" => some (.str r.experimento)
  | "region" => some (.str r.region)
  | "tipo_tienda" => some (.str r.tipo_tienda)
  | "usuarios" => some (.num r.usuarios)
  | "conversiones" => some (.num r.conversiones)
  | "revenue" => some (.num r.revenue)
  | "conversion_rate" => some (.num r.conversion_rate)
  | _ => none

/-- Membership test modelling field_name in data.columns. -/
def isColumn (name : String) : Bool := dfColumns.contains name

/-! numpy argsort with kind=quicksort (npy_aquicksort in
numpy/core/src/npysort/quicksort.c.src), the kernel behind the default
pandas sort_values: introsort over an index array.  Segments of more
than SMALL_QUICKSORT + 1 = 16 elements take a median-of-three quicksort
partition step, with heapsort (npy_aheapsort) as fallback once the
depth budget 2·log2(n) is spent; segments of at most 16 elements are
finished by a stable insertion sort.  The C loops are written below
with explicit fuel; every fuel argument passed strictly exceeds the
number of iterations the corresponding C loop can make, so the
fuel-exhausted base cases are dead code. -/

/-- numpy SMALL_QUICKSORT: segments must be longer than 16 elements
(pr - pl > 15) before a partition step is taken. -/
def npySmallQuicksort : Nat := 15

/-- tosort[i]: index-array read (the indices held by the sort are always
in bounds, so the default is never read). -/
def tG (t : List Nat) (i : Nat) : Nat := t.getD i 0

/-- INTP_SWAP of two cells of the index array. -/
def tSwap (t : List Nat) (i j : Nat) : List Nat :=
  (t.set i (tG t j)).set j (tG t i)

/-- v[tosort[i]]: the cell value the index at position i points at. -/
def vT (v : List (Option Fv)) (t : List Nat) (i : Nat) : Option Fv :=
  v.getD (tG t i) none

/-- Inner while of the aquicksort insertion sort: shift indices of larger
values one cell right, walking pj left from pi down to pl, then store the
saved index vi.  Fuel pi bounds the leftward walk. -/
def ainsInner (v : List (Option Fv)) (vi pl : Nat) :
    Nat → List Nat → Nat → List Nat
  | 0, t, pj => t.set pj vi
  | fuel + 1, t, pj =>
    if pl < pj then
      if ofvLt (v.getD vi none) (vT v t (pj - 1)) then
        ainsInner v vi pl fuel (t.set pj (tG t (pj - 1))) (pj - 1)
      else t.set pj vi
    else t.set pj vi

/-- Outer for of the aquicksort insertion sort: pi runs pl+1 .. pr. -/
def ainsOuter (v : List (Option Fv)) (pl pr : Nat) :
    Nat → List Nat → Nat → List Nat
  | 0, t, _ => t
  | fuel + 1, t, pi =>
    if pi ≤ pr then
      ainsOuter v pl pr fuel (ainsInner v (tG t pi) pl pi t pi) (pi + 1)
    else t

/-- The insertion-sort block of npy_aquicksort on the segment t[pl..pr],
the stable kernel that handles every segment of at most 16 elements. -/
def ainsRange (v : List (Option Fv)) (t : List Nat) (pl pr : Nat) :
    List Nat :=
  ainsOuter v pl pr (pr + 1) t (pl + 1)

/-- a[i] of npy_aheapsort's 1-based view of the segment starting at pl. -/
def aG (t : List Nat) (pl i : Nat) : Nat := tG t (pl + i - 1)

/-- The sift-down loop shared by both npy_aheapsort phases: walk the
saved index tmp down the heap a[1..n], promoting the larger child;
returns the updated index array and the final hole position i.  The
child position j doubles every iteration, so fuel n+1 is ample. -/
def aheapSift (v : List (Option Fv)) (pl tmp n : Nat) :
    Nat → List Nat → Nat → Nat → List Nat × Nat
  | 0, t, i, _ => (t, i)
  | fuel + 1, t, i, j =>
    if j ≤ n then
      let j2 := if j < n then
          (if ofvLt (v.getD (aG t pl j) none) (v.getD (aG t pl (j + 1)) none)
           then j + 1 else j)
        else j
      if ofvLt (v.getD tmp none) (v.getD (aG t pl j2) none) then
        aheapSift v pl tmp n fuel (t.set (pl + i - 1) (aG t pl j2)) j2 (j2 + j2)
      else (t, i)
    else (t, i)

/-- Heap-build phase of npy_aheapsort: l runs n/2 down to 1. -/
def aheapBuild (v : List (Option Fv)) (pl n : Nat) :
    Nat → List Nat → Nat → List Nat
  | 0, t, _ => t
  | fuel + 1, t, l =>
    if 1 ≤ l then
      let p := aheapSift v pl (aG t pl l) n (n + 1) t l (l + l)
      aheapBuild v pl n fuel (p.1.set (pl + p.2 - 1) (aG t pl l)) (l - 1)
    else t

/-- Extraction phase of npy_aheapsort: repeatedly swap the maximum a[1]
to the end of the shrinking heap and re-sift. -/
def aheapExtract (v : List (Option Fv)) (pl : Nat) :
    Nat → List Nat → Nat → List Nat
  | 0, t, _ => t
  | fuel + 1, t, n =>
    if 1 < n then
      let tmp := aG t pl n
      let t1 := t.set (pl + n - 1) (aG t pl 1)
      let p := aheapSift v pl tmp (n - 1) n t1 1 2
      aheapExtract v pl fuel (p.1.set (pl + p.2 - 1) tmp) (n - 1)
    else t

/-- npy_aheapsort on the segment of n indices starting at pl. -/
def aheapsortRange (v : List (Option Fv)) (t : List Nat) (pl n : Nat) :
    List Nat :=
  aheapExtract v pl (n + 1) (aheapBuild v pl n (n + 1) t (n / 2)) n

/-- First Hoare scan of the partition: do ++pi while v[t[pi]] < pivot. -/
def ascanUp (v : List (Option Fv)) (vp : Option Fv) :
    Nat → List Nat → Nat → Nat
  | 0, _, i => i + 1
  | fuel + 1, t, i =>
    if ofvLt (vT v t (i + 1)) vp then ascanUp v vp fuel t (i + 1) else i + 1

/-- Second Hoare scan of the partition: do --pj while pivot < v[t[pj]]. -/
def ascanDown (v : List (Option Fv)) (vp : Option Fv) :
    Nat → List Nat → Nat → Nat
  | 0, _, j => j - 1
  | fuel + 1, t, j =>
    if ofvLt vp (vT v t (j - 1)) then ascanDown v vp fuel t (j - 1) else j - 1

/-- The partition swap loop: advance both scans and swap the
out-of-place pair until the scans cross; returns the crossing
position pi. -/
def apartLoop (v : List (Option Fv)) (vp : Option Fv) :
    Nat → List Nat → Nat → Nat → List Nat × Nat
  | 0, t, pi, _ => (t, pi)
  | fuel + 1, t, pi, pj =>
    let pi2 := ascanUp v vp (t.length + 1) t pi
    let pj2 := ascanDown v vp (t.length + 1) t pj
    if pj2 ≤ pi2 then (t, pi2)
    else apartLoop v vp fuel (tSwap t pi2 pj2) pi2 pj2

/-- One quicksort partition step of npy_aquicksort on t[pl..pr]:
median-of-three pivot selection (with the three index swaps), pivot
parked at pr-1, Hoare scans from both ends, and the pivot swapped into
its final position pi, which is returned. -/
def apartition (v : List (Option Fv)) (t : List Nat) (pl pr : Nat) :
    List Nat × Nat :=
  let pm := pl + (pr - pl) / 2
  let t1 := if ofvLt (vT v t pm) (vT v t pl) then tSwap t pm pl else t
  let t2 := if ofvLt (vT v t1 pr) (vT v t1 pm) then tSwap t1 pr pm else t1
  let t3 := if ofvLt (vT v t2 pm) (vT v t2 pl) then tSwap t2 pm pl else t2
  let vp := vT v t3 pm
  let t4 := tSwap t3 pm (pr - 1)
  let p := apartLoop v vp (t4.length + 1) t4 pl (pr - 1)
  (tSwap p.1 p.2 (pr - 1), p.2)

/-- Main loop of npy_aquicksort: an explicit stack of pending segments
and a global depth budget dl.  A segment longer than 16 elements is
partitioned (the larger half pushed, the smaller continued) or, once dl
has gone negative, heapsorted; a segment of at most 16 elements is
insertion sorted; a finished segment pops the stack.  The total number
of partition steps plus finished segments is below the fuel 2·n+4
passed by npyAquicksort. -/
def aqsLoop (v : List (Option Fv)) :
    Nat → List Nat → List (Nat × Nat) → Nat → Nat → Int → List Nat
  | 0, t, _, _, _, _ => t
  | fuel + 1, t, stack, pl, pr, dl =>
    if npySmallQuicksort < pr - pl then
      if dl < 0 then
        (match stack with
         | [] => aheapsortRange v t pl (pr - pl + 1)
         | (pl2, pr2) :: rest =>
           aqsLoop v fuel (aheapsortRange v t pl (pr - pl + 1)) rest pl2 pr2 dl)
      else
        (let p := apartition v t pl pr
         if p.2 - pl < pr - p.2 then
           aqsLoop v fuel p.1 ((p.2 + 1, pr) :: stack) pl (p.2 - 1) (dl - 1)
         else
           aqsLoop v fuel p.1 ((pl, p.2 - 1) :: stack) (p.2 + 1) pr (dl - 1))
    else
      (match stack with
       | [] => ainsRange v t pl pr
       | (pl2, pr2) :: rest => aqsLoop v fuel (ainsRange v t pl pr) rest pl2 pr2 dl)

/-- numpy v.argsort(kind='quicksort'), npy_aquicksort: the index
permutation that sorts v ascending.  NOT stable in general: only the
segments the introsort hands to the insertion sort (at most 16 elements
each) keep the original relative order of equal values. -/
def npyAquicksort (v : List (Option Fv)) : List Nat :=
  aqsLoop v (2 * v.length + 4) (List.range v.length) [] 0 (v.length - 1)
    (2 * Nat.log2 v.length)

/-- pandas nargsort (pandas/core/sorting.py) on a column with no NaN:
ascending is a plain numpy argsort; descending argsorts the reversed
values, maps each index k back to the original position n-1-k, and
reverses the result. -/
def nargsort (vals : List (Option Fv)) (ascending : Bool) : List Nat :=
  if ascending then npyAquicksort vals
  else ((npyAquicksort vals.reverse).map (fun k => vals.length - 1 - k)).reverse

/-- pandas DataFrame.sort_values by one column with the default
kind='quicksort': nargsort the column, then reindex the rows in the
returned index order. -/
def sort_values (l : List Row) (col : String) (ascending : Bool) : List Row :=
  (nargsort (l.map (fun r => colVal r col)) ascending).filterMap
    (fun i => l.get? i)

/-- The result dict built per row by get_top_performers (query.py 79-89).
The derived description string, a pure rendering of these same fields, is
not modelled. -/
structure TPResult where
  tienda_id : String
  experimento : String
  region : String
  tipo_tienda : String
  usuarios : Nat
  conversiones : Nat
  revenue : ℚ
  conversion_rate : ℚ
deriving DecidableEq, Repr

def toTPResult (r : Row) : TPResult :=
  ⟨r.tienda_id, r.experimento, r.region, r.tipo_tienda,
   r.usuarios, r.conversiones, r.revenue, r.conversion_rate⟩

/-- ABTestingQueryEngine.get_top_performers (query.py 49-96).  d is the
DataFrame re-read from the data processor.  Filters apply only to existing
columns.  Sorting by a name that is not a column raises a KeyError inside
the try block, and the bare except handler prints the error and returns
the empty list. -/
def get_top_performers (d : List Row) (metric : String) (order : String)
    (limit : Nat) (filters : List (String × Fv)) : List TPResult :=
  let data := filters.foldl
    (fun acc fv =>
      if isColumn fv.1 then acc.filter (fun r => colVal r fv.1 == some fv.2) else acc) d
  let reverse_order := pyLower order == "desc"
  if isColumn metric then
    ((sort_values data metric (!reverse_order)).take limit).map toTPResult
  else []

/-- The ranking metrics named by the spec for top_performers. -/
def numericMetrics : List String :=
  ["usuarios", "conversiones", "revenue", "conversion_rate"]

/-- The four-store dataset of the claim, with revenues [10, 50, 30, 50]. -/
def c3r0 : Row := ⟨"Control", "T_Control_001", "Norte", "Mall", 100, 10, 10, 10⟩

def c3r1 : Row := ⟨"Control", "T_Control_002", "Sur", "Street", 120, 12, 50, 10⟩

def c3r2 : Row := ⟨"Experimento_A", "T_Experimento_A_001", "Este", "Mall", 110, 11, 30, 11⟩

def c3r3 : Row := ⟨"Experimento_A", "T_Experimento_A_002", "Oeste", "Outlet", 130, 13, 50, 12⟩

def c3Data : List Row := [c3r0, c3r1, c3r2, c3r3]

/-- Row builder for the 17-store dataset: the stores differ only in id
and revenue, so revenue ties abound. -/
def c3bRow (id : String) (rev : ℚ) : Row :=
  ⟨"Control", id, "Norte", "Mall", 100, 10, rev, 10⟩

/-- A 17-store dataset, one element past numpy's 16-element
insertion-sort cutoff, with revenues
[50,50,10,10,10,10,10,10,50,50,50,50,50,10,50,10,10]. -/
def c3bData : List Row :=
  [c3bRow "TB00" 50, c3bRow "TB01" 50, c3bRow "TB02" 10, c3bRow "TB03" 10,
   c3bRow "TB04" 10, c3bRow "TB05" 10, c3bRow "TB06" 10, c3bRow "TB07" 10,
   c3bRow "TB08" 50, c3bRow "TB09" 50, c3bRow "TB10" 50, c3bRow "TB11" 50,
   c3bRow "TB12" 50, c3bRow "TB13" 10, c3bRow "TB14" 50, c3bRow "TB15" 10,
   c3bRow "TB16" 10]

/-! ## Analytics (analytics.py)

Python float values that can be NaN are modelled as Option ℚ with
none = NaN: NaN propagates through arithmetic and every ordered
comparison against NaN is False. -/

/-- pandas Series.mean over a column: NaN on an empty frame. -/
def pmean (l : List ℚ) : Option ℚ :=
  if l.length = 0 then none else some (l.sum / (l.length : ℚ))

/-- A possibly-NaN p-value compared against the 0.05 threshold
(NaN < 0.05 is False in Python). -/
def pyLt05 : Option ℚ → Bool
  | some x => decide (x < (1 : ℚ)/20)
  | none => false

/-- _calculate_metrics (analytics.py 59-70).  The source dict also carries
median_conversion_rate, std_conversion_rate and the two revenue ratios;
std requires irrational square roots and none of median/std is read by any
downstream computation, so they are not modelled.  avg_revenue_per_user is
an unguarded float division in the source; with zero users its IEEE result
(inf or nan) is collapsed to none, and nothing reads it downstream. -/
structure GroupMetrics where
  total_usuarios : Nat
  total_conversiones : Nat
  total_revenue : ℚ
  avg_conversion_rate : Option ℚ
  avg_revenue_per_user : Option ℚ
  avg_revenue_per_conversion : ℚ
deriving DecidableEq, Repr

def calculate_metrics (data : List Row) : GroupMetrics :=
  let tu := (data.map (·.usuarios)).sum
  let tc := (data.map (·.conversiones)).sum
  let tr := (data.map (·.revenue)).sum
  { total_usuarios := tu
    total_conversiones := tc
    total_revenue := tr
    avg_conversion_rate := pmean (data.map (·.conversion_rate))
    avg_revenue_per_user := if tu = 0 then none else some (tr / (tu : ℚ))
    avg_revenue_per_conversion := if 0 < tc then tr / (tc : ℚ) else 0 }

/-- _calculate_lift (analytics.py 72-76) on NaN-aware floats: a NaN
control value fails the == 0 test and the arithmetic yields NaN; a zero
control returns 0 without touching the experiment value. -/
def calculate_lift : Option ℚ → Option ℚ → Option ℚ
  | _, none => none
  | e, some c =>
    if c = 0 then some 0
    else
      match e with
      | none => none
      | some ev => some ((ev - c) / c * 100)

structure TTestOutcome where
  t_statistic : Option ℚ
  p_value : Option ℚ
  is_significant : Bool
deriving DecidableEq, Repr

structure Chi2Outcome where
  chi2_statistic : Option ℚ
  p_value : Option ℚ
  degrees_of_freedom : Nat
  is_significant : Bool
deriving DecidableEq, Repr

structure StatTestResult where
  t_test : TTestOutcome
  chi_square_test : Chi2Outcome
  overall_significance : Bool
deriving DecidableEq, Repr

/-- Deterministic numeric collaborators (scipy special functions):
ttest_ind yields the two-sample t statistic and p-value, either possibly
NaN; chi2_sf is the χ²(dof) upper-tail probability used for the
contingency p-value. -/
structure NumLib where
  ttest_ind : List ℚ → List ℚ → Option ℚ × Option ℚ
  chi2_sf : ℚ → Nat → Option ℚ

/-- Failures analyze_ab_test_results can raise.  The constructor
configurationError is modelled from the spec: §7 mandates a
ConfigurationError kind, the source defines no such class; it is present
so that its absence from every analysis outcome is expressible. -/
inductive AnalyticsError where
  | valueError (msg : String)
  | configurationError
deriving DecidableEq, Repr

/-- scipy.stats.chi2_contingency on the 2×2 table [[o11,o12],[o21,o22]]
with the default Yates continuity correction at one degree of freedom.
It raises ValueError on a negative entry or a zero expected frequency;
with an all-zero table the expected frequencies are 0/0 = NaN, the zero
check sees no zero, and statistic and p-value come out NaN. -/
def chi2_contingency (nl : NumLib) (o11 o12 o21 o22 : ℤ) :
    Except AnalyticsError (Option ℚ × Option ℚ) :=
  if o11 < 0 ∨ o12 < 0 ∨ o21 < 0 ∨ o22 < 0 then
    .error (.valueError "All values in observed must be nonnegative.")
  else
    let total : ℤ := o11 + o12 + o21 + o22
    if total = 0 then .ok (none, none)
    else
      let r1 : ℚ := (o11 : ℚ) + (o12 : ℚ)
      let r2 : ℚ := (o21 : ℚ) + (o22 : ℚ)
      let c1 : ℚ := (o11 : ℚ) + (o21 : ℚ)
      let c2 : ℚ := (o12 : ℚ) + (o22 : ℚ)
      let t : ℚ := (total : ℚ)
      if r1 * c1 / t = 0 ∨ r1 * c2 / t = 0 ∨ r2 * c1 / t = 0 ∨ r2 * c2 / t = 0 then
        .error (.valueError
          "The internally computed table of expected frequencies has a zero element.")
      else
        let yates := fun (o e : ℚ) => (max (|o - e| - 1/2) 0) ^ 2 / e
        let chi2 := yates (o11 : ℚ) (r1 * c1 / t) + yates (o12 : ℚ) (r1 * c2 / t) +
          yates (o21 : ℚ) (r2 * c1 / t) + yates (o22 : ℚ) (r2 * c2 / t)
        .ok (some chi2, nl.chi2_sf chi2 1)

/-- _perform_statistical_test (analytics.py 78-116). -/
def perform_statistical_test (nl : NumLib) (control_data experiment_data : List Row) :
    Except AnalyticsError StatTestResult :=
  let tp := nl.ttest_ind
    (control_data.map (·.conversion_rate)) (experiment_data.map (·.conversion_rate))
  let cc : ℤ := ((control_data.map (·.conversiones)).sum : ℕ)
  let cu : ℤ := ((control_data.map (·.usuarios)).sum : ℕ)
  let ec : ℤ := ((experiment_data.map (·.conversiones)).sum : ℕ)
  let eu : ℤ := ((experiment_data.map (·.usuarios)).sum : ℕ)
  match chi2_contingency nl cc (cu - cc) ec (eu - ec) with
  | .error err => .error err
  | .ok cp => .ok {
      t_test := { t_statistic := tp.1, p_value := tp.2,
                  is_significant := pyLt05 tp.2 }
      chi_square_test := { chi2_statistic := cp.1, p_value := cp.2,
                           degrees_of_freedom := 1, is_significant := pyLt05 cp.2 }
      overall_significance := pyLt05 tp.2 && pyLt05 cp.2 }

/-- pandas Series.unique: distinct values in first-occurrence order. -/
def pyUniqueAux (seen : List String) : List String → List String
  | [] => []
  | x :: xs =>
    if seen.contains x then pyUniqueAux seen xs
    else x :: pyUniqueAux (x :: seen) xs

def pyUnique (l : List String) : List String := pyUniqueAux [] l

/-- The control partition self.data[self.data.experimento == "Control"]. -/
def controlData (d : List Row) : List Row :=
  d.filter (fun r => r.experimento == "Control")

/-- The distinct non-control experiment groups (analytics.py line 17). -/
def experiment_groups (d : List Row) : List String :=
  pyUnique ((d.filter (fun r => r.experimento != "Control")).map (·.experimento))

structure ExperimentResult where
  metrics : GroupMetrics
  conversion_lift : Option ℚ
  revenue_lift : Option ℚ
  statistical_significance : StatTestResult
deriving DecidableEq, Repr

structure SegmentResult where
  control_conversion_rate : Option ℚ
  experiment_conversion_rate : Option ℚ
  lift : Option ℚ
  control_revenue : ℚ
  experiment_revenue : ℚ
  sample_size_control : Nat
  sample_size_experiment : Nat
deriving DecidableEq, Repr

/-- The per-segment dict built by _analyze_by_region and
_analyze_by_store_type from a control subset and an Experimento_A subset. -/
def segmentEntry (ctrl expr : List Row) : SegmentResult :=
  let control_cr := pmean (ctrl.map (·.conversion_rate))
  let experiment_cr := pmean (expr.map (·.conversion_rate))
  { control_conversion_rate := control_cr
    experiment_conversion_rate := experiment_cr
    lift := calculate_lift experiment_cr control_cr
    control_revenue := (ctrl.map (·.revenue)).sum
    experiment_revenue := (expr.map (·.revenue)).sum
    sample_size_control := ctrl.length
    sample_size_experiment := expr.length }

/-- _analyze_by_region (analytics.py 118-141): for each distinct region,
compare the region's Control rows against its Experimento_A rows only,
keeping the segment exactly when both are nonempty. -/
def analyze_by_region (d : List Row) : List (String × SegmentResult) :=
  (pyUnique (d.map (·.region))).filterMap (fun region =>
    let region_data := d.filter (fun r => r.region == region)
    let control_region := region_data.filter (fun r => r.experimento == "Control")
    let experiment_region :=
      region_data.filter (fun r => r.experimento == "Experimento_A")
    if 0 < control_region.length ∧ 0 < experiment_region.length then
      some (region, segmentEntry control_region experiment_region)
    else none)

/-- _analyze_by_store_type (analytics.py 143-166), same shape by store type. -/
def analyze_by_store_type (d : List Row) : List (String × SegmentResult) :=
  (pyUnique (d.map (·.tipo_tienda))).filterMap (fun store_type =>
    let store_data := d.filter (fun r => r.tipo_tienda == store_type)
    let control_store := store_data.filter (fun r => r.experimento == "Control")
    let experiment_store :=
      store_data.filter (fun r => r.experimento == "Experimento_A")
    if 0 < control_store.length ∧ 0 < experiment_store.length then
      some (store_type, segmentEntry control_store experiment_store)
    else none)

/-- One experiment block of the executive summary string. -/
structure SummaryLine where
  name : String
  avg_conversion_rate : Option ℚ
  conversion_lift : Option ℚ
  total_revenue : ℚ
  revenue_lift : Option ℚ
  overall_significant : Bool
  t_p_value : Option ℚ
deriving DecidableEq, Repr

/-- The data interpolated into _generate_summary_multi's summary string
(analytics.py 196-234); the numeric-to-text formatting itself is not
modelled. -/
structure SummaryData where
  control_total_conversiones : Nat
  control_total_usuarios : Nat
  control_avg_conversion_rate : Option ℚ
  control_total_revenue : ℚ
  experiment_lines : List SummaryLine
  best_experiment : String
  best_lift : Option ℚ
deriving DecidableEq, Repr

/-- Strict greater-than on possibly-NaN values (any NaN side is False). -/
def optGt : Option ℚ → Option ℚ → Bool
  | some a, some b => decide (b < a)
  | _, _ => false

/-- Python max(iterable, key=f): the first element no later element
strictly beats; raises ValueError on an empty sequence. -/
def pyMaxBy (f : α → Option ℚ) : List α → Except AnalyticsError α
  | [] => .error (.valueError "max() arg is an empty sequence")
  | x :: xs => .ok (xs.foldl (fun best y => if optGt (f y) (f best) then y else best) x)

/-- _generate_summary_multi (analytics.py 196-234). -/
def generate_summary_multi (control : GroupMetrics)
    (exps : List (String × ExperimentResult)) : Except AnalyticsError SummaryData :=
  match pyMaxBy (fun e => e.2.conversion_lift) exps with
  | .error err => .error err
  | .ok best => .ok {
    control_total_conversiones := control.total_conversiones
    control_total_usuarios := control.total_usuarios
    control_avg_conversion_rate := control.avg_conversion_rate
    control_total_revenue := control.total_revenue
    experiment_lines := exps.map (fun e =>
      { name := e.1
        avg_conversion_rate := e.2.metrics.avg_conversion_rate
        conversion_lift := e.2.conversion_lift
        total_revenue := e.2.metrics.total_revenue
        revenue_lift := e.2.revenue_lift
        overall_significant := e.2.statistical_significance.overall_significance
        t_p_value := e.2.statistical_significance.t_test.p_value })
    best_experiment := best.1
    best_lift := best.2.conversion_lift }

structure AnalysisReport where
  control : GroupMetrics
  experiments : List (String × ExperimentResult)
  regional_analysis : List (String × SegmentResult)
  store_type_analysis : List (String × SegmentResult)
  summary : SummaryData
deriving DecidableEq, Repr

/-- The Python for-loop over experiment groups: results accumulate in
order and the first raised exception aborts the whole call. -/
def mapME (f : α → Except AnalyticsError β) : List α → Except AnalyticsError (List β)
  | [] => .ok []
  | x :: xs =>
    match f x with
    | .error err => .error err
    | .ok y =>
      match mapME f xs with
      | .error err => .error err
      | .ok ys => .ok (y :: ys)

/-- The body of the per-experiment-group loop of analyze_ab_test_results
(analytics.py 22-45). -/
def analyzeGroup (nl : NumLib) (d : List Row) (g : String) :
    Except AnalyticsError (String × ExperimentResult) :=
  let control_data := controlData d
  let controlMetrics := calculate_metrics control_data
  let experiment_data := d.filter (fun r => r.experimento == g)
  let experiment_metrics := calculate_metrics experiment_data
  let conversion_lift := calculate_lift experiment_metrics.avg_conversion_rate
    controlMetrics.avg_conversion_rate
  let revenue_lift := calculate_lift (some experiment_metrics.total_revenue)
    (some controlMetrics.total_revenue)
  match perform_statistical_test nl control_data experiment_data with
  | .error err => .error err
  | .ok statistical_test =>
    .ok (g, { metrics := experiment_metrics
              conversion_lift := conversion_lift
              revenue_lift := revenue_lift
              statistical_significance := statistical_test })

/-- ABTestingAnalytics.analyze_ab_test_results (analytics.py 12-57). -/
def analyze_ab_test_results (nl : NumLib) (d : List Row) :
    Except AnalyticsError AnalysisReport :=
  match mapME (analyzeGroup nl d) (experiment_groups d) with
  | .error err => .error err
  | .ok exps =>
    match generate_summary_multi (calculate_metrics (controlData d)) exps with
    | .error err => .error err
    | .ok summary =>
      .ok { control := calculate_metrics (controlData d)
            experiments := exps
            regional_analysis := analyze_by_region d
            store_type_analysis := analyze_by_store_type d
            summary := summary }

/-- A concrete collaborator instance for witnesses and counterexamples:
the properties checked never depend on the scipy outputs, so constant
functions suffice. -/
def dummyNumLib : NumLib := ⟨fun _ _ => (none, none), fun _ _ => none⟩

/-! Error-kind inventory of the analysis pipeline. -/

instance {ε α : Type} [DecidableEq ε] [DecidableEq α] : DecidableEq (Except ε α) := fun
  | .error e1, .error e2 =>
    if h : e1 = e2 then isTrue (by rw [h])
    else isFalse (fun hc => h (by injection hc))
  | .error _, .ok _ => isFalse (fun h => Except.noConfusion h)
  | .ok _, .error _ => isFalse (fun h => Except.noConfusion h)
  | .ok a1, .ok a2 =>
    if h : a1 = a2 then isTrue (by rw [h])
    else isFalse (fun hc => h (by injection hc))

/-- Whether an analysis outcome is the ConfigurationError failure §7 of
the spec mandates for a missing control group. -/
def isConfigurationError : Except AnalyticsError AnalysisReport → Bool
  | .error .configurationError => true
  | _ => false

/-- A one-row dataset with no control group and live traffic. -/
def c5Data : List Row :=
  [⟨"Experimento_A", "T_Experimento_A_001", "Norte", "Mall", 100, 10, 500, 10⟩]

/-- A one-row dataset with no control group and an all-zero traffic row. -/
def c5ZeroData : List Row :=
  [⟨"Experimento_A", "T_Experimento_A_001", "Norte", "Mall", 0, 0, 0, 5⟩]

/-- The mean conversion rate of the control partition of d. -/
def controlAvgCR (d : List Row) : ℚ :=
  ((controlData d).map (·.conversion_rate)).sum / ((controlData d).length : ℚ)

/-- The mean conversion rate of the partition of group g in d. -/
def groupAvgCR (d : List Row) (g : String) : ℚ :=
  ((d.filter (fun row => row.experimento == g)).map (·.conversion_rate)).sum /
    ((d.filter (fun row => row.experimento == g)).length : ℚ)

/-- The revenue total of the control partition of d. -/
def controlRev (d : List Row) : ℚ := ((controlData d).map (·.revenue)).sum

/-- The revenue total of the partition of group g in d. -/
def groupRev (d : List Row) (g : String) : ℚ :=
  ((d.filter (fun row => row.experimento == g)).map (·.revenue)).sum

/-- The lift contract of the claim, for one non-control group g of
dataset d: zero control baseline gives lift 0, nonzero control baseline
gives the percentage formula, for the conversion-rate mean and the
revenue total respectively. -/
def liftClaim (d : List Row) (g : String) (e : ExperimentResult) : Prop :=
  (controlAvgCR d = 0 → e.conversion_lift = some 0) ∧
  (controlAvgCR d ≠ 0 → e.conversion_lift =
    some ((groupAvgCR d g - controlAvgCR d) / controlAvgCR d * 100)) ∧
  (controlRev d = 0 → e.revenue_lift = some 0) ∧
  (controlRev d ≠ 0 → e.revenue_lift =
    some ((groupRev d g - controlRev d) / controlRev d * 100))

/-- A three-store dataset with a two-row control partition and one
Experimento_A row, rich enough that every analysis step succeeds. -/
def c2rc1 : Row := ⟨"Control", "T_Control_001", "Norte", "Mall", 100, 10, 1000, 10⟩

def c2rc2 : Row := ⟨"Control", "T_Control_002", "Norte", "Street", 100, 20, 2000, 20⟩

def c2re1 : Row := ⟨"Experimento_A", "T_Experimento_A_001", "Norte", "Mall", 100, 30, 3000, 30⟩

def c2Data : List Row := [c2rc1, c2rc2, c2re1]

def emptySummary : SummaryData := ⟨0, 0, none, 0, [], "", none⟩

def emptyReport : AnalysisReport := ⟨calculate_metrics [], [], [], [], emptySummary⟩

/-- The report the analysis yields on c2Data (the fallback branch is dead). -/
def c2Report : AnalysisReport :=
  match analyze_ab_test_results dummyNumLib c2Data with
  | .ok r => r
  | .error _ => emptyReport

/-- The Experimento_A entry of c2Report (the fallback branch is dead). -/
def c2Entry : ExperimentResult :=
  match c2Report.experiments with
  | (_, e) :: _ => e
  | [] => ⟨calculate_metrics [], none, none,
           ⟨⟨none, none, false⟩, ⟨none, none, 1, false⟩, false⟩⟩

/-- A dataset whose only segment holds Control and Experimento_B rows. -/
def c6Data : List Row :=
  [⟨"Control", "T_Control_001", "Norte", "Mall", 100, 10, 1000, 10⟩,
   ⟨"Experimento_B", "T_Experimento_B_001", "Norte", "Street", 100, 20, 2000, 20⟩]

/-! ## semantic_search result formatting (query.py 14-38 and 147-185) -/

/-- Python str.split on the underscore separator, on character lists. -/
def splitUnderscore : List Char → List (List Char)
  | [] => [[]]
  | c :: cs =>
    match splitUnderscore cs with
    | [] => if c = '_' then [[], []] else [[c]]
    | x :: xs => if c = '_' then [] :: x :: xs else (c :: x) :: xs

/-- id.split('_') as a list of strings. -/
def pySplit (s : String) : List String :=
  (splitUnderscore s.toList).map (fun l => ⟨l⟩)

/-- '_'.join(parts). -/
def joinUnderscore : List String → String
  | [] => ""
  | [x] => x
  | x :: xs => x ++ "_" ++ joinUnderscore xs

/-- Metadata of a Superlinked ResultEntry: the similarity score. -/
structure EntryMetadata where
  score : ℚ
deriving DecidableEq, Repr

/-- A Superlinked ResultEntry as consumed by _format_results: the stored
document id plus metadata (its stored fields are never read). -/
structure ResultEntry where
  id : String
  metadata : EntryMetadata
deriving DecidableEq, Repr

/-- One formatted result of _format_results: the score plus the flat data
dict (the code stores them under the keys score / data / description). -/
structure FormattedResult where
  score : ℚ
  experimento : String
  tienda_id : String
  region : String
  tipo_tienda : String
  usuarios : Nat
  conversiones : Nat
  revenue : ℚ
  conversion_rate : ℚ
  description : String
deriving DecidableEq, Repr

/-- The per-entry dict of _format_results (query.py 157-181): experiment
and store id are parsed back out of the index id string, and region,
tipo_tienda, usuarios, conversiones, revenue and conversion_rate are
hard-coded placeholders marked "No disponible en el resultado". -/
def formatEntry (entry : ResultEntry) : FormattedResult :=
  let id_parts := pySplit entry.id
  let experimento := if 3 ≤ id_parts.length then id_parts.getD 0 "" else "Unknown"
  let tienda_id :=
    if 3 ≤ id_parts.length then
      if 3 < id_parts.length then joinUnderscore ((id_parts.drop 1).take 2)
      else id_parts.getD 1 ""
    else "Unknown"
  { score := entry.metadata.score
    experimento := experimento
    tienda_id := tienda_id
    region := "Unknown"
    tipo_tienda := "Unknown"
    usuarios := 0
    conversiones := 0
    revenue := 0
    conversion_rate := 0
    description := "Resultado del experimento " ++ experimento ++
      " en tienda " ++ tienda_id }

/-- _format_results (query.py 147-185): iterate the QueryResult key/value
pairs, format the entries of the first "entries" key and stop there. -/
def format_results : List (String × List ResultEntry) → List FormattedResult
  | [] => []
  | (key, value) :: rest =>
    if key == "entries" then value.map formatEntry
    else format_results rest

/-- ABTestingQueryEngine.semantic_search (query.py 14-38): the query text,
filters and limit only shape the Superlinked collaborator call whose raw
QueryResult is appResult; that result is passed to _format_results and
returned unchanged.  No record store is ever consulted. -/
def semantic_search (query_text : String) (limit : Nat)
    (appResult : List (String × List ResultEntry)) : List FormattedResult :=
  format_results appResult

/-- Document id built by ABTestingDataProcessor.prepare_documents
(data_processing.py line 28) for row r at frame index idx: the only key
reconciling index hits with the record store. -/
def record_id (r : Row) (idx : Nat) : String :=
  r.experimento ++ "_" ++ r.tienda_id ++ "_" ++ toString idx

/-- The record store row referenced by the index hit of the claim. -/
def c1Row : Row := ⟨"Control", "T_Control_001", "Norte", "Mall", 100, 10, 5000, 10⟩

/-- An index result holding one hit that resolves to c1Row's record id. -/
def c1IndexResult : List (String × List ResultEntry) :=
  [("entries", [⟨record_id c1Row 0, ⟨19/20⟩⟩])]

/-! ## Intent Router (intent_router.py) -/

inductive IntentType where
  | greeting
  | count_query
  | data_info
  | store_id_query
  | unknown
deriving DecidableEq, Repr

/-- One registered intent (intent_router.py 19-26): regex patterns are
modelled as predicates on the lowered, stripped query. -/
structure Intent where
  type : IntentType
  patterns : List (String → Bool)
  keywords : List String
  handler : String
  priority : Nat

/-- The greeting alternatives of the anchored greeting regex. -/
def greetingAlts : List String := ["hola", "hello", "hi", "buenos días", "buenas tardes"]

/-- A character matched by the trailing class of the greeting regex. -/
def pyWsOrPunct (c : Char) : Bool := pyWs c || c = '.' || c = '!'

/-- Model of the anchored greeting regex
(hola|hello|hi|buenos días|buenas tardes) followed only by whitespace,
dots or exclamation marks. -/
def greetingPatternMatch (ql : String) : Bool :=
  greetingAlts.any (fun g =>
    listStartsWith g.toList ql.toList &&
    (ql.toList.drop g.toList.length).all pyWsOrPunct)

/-- Model of an unanchored alternation regex: some alternative occurs. -/
def containsAny (kws : List String) (ql : String) : Bool :=
  kws.any (fun k => pyIn k ql)

def threeDigits : List Char → Bool
  | d1 :: d2 :: d3 :: _ => d1.isDigit && d2.isDigit && d3.isDigit
  | _ => false

/-- The store-id regex T_(Control|Experimento_[ABC])_ddd matched at the
start of a suffix of the lowered query (re.IGNORECASE lowers the
pattern literals). -/
def storeIdAt (t : List Char) : Bool :=
  (listStartsWith "t_control_".toList t && threeDigits (t.drop 10)) ||
  (listStartsWith "t_experimento_".toList t &&
    (match t.drop 14 with
     | v :: '_' :: rest => (v = 'a' || v = 'b' || v = 'c') && threeDigits rest
     | _ => false))

def storeIdPattern (ql : String) : Bool := ql.toList.tails.any storeIdAt

/-- Model of the regex (tienda|store) then id, in order. -/
def tiendaStoreIdPattern (ql : String) : Bool :=
  ql.toList.tails.any (fun t =>
    (listStartsWith "tienda".toList t && listContains "id".toList (t.drop 6)) ||
    (listStartsWith "store".toList t && listContains "id".toList (t.drop 5)))

/-- Model of the regex datos then de then T_, in order. -/
def datosDeTPattern (ql : String) : Bool :=
  ql.toList.tails.any (fun t =>
    listStartsWith "datos".toList t &&
    (t.drop 5).tails.any (fun t2 =>
      listStartsWith "de".toList t2 && listContains "t_".toList (t2.drop 2)))

/-- IntentRouter._define_intents (intent_router.py 36-84), in source
order.  Keyword matching happens against the lowered query, so the
capitalized store keywords T_Control and T_Experimento can never hit. -/
def intents : List Intent :=
  [{ type := .greeting
     patterns := [greetingPatternMatch]
     keywords := ["hola", "hello", "hi", "buenos días", "buenas tardes"]
     handler := "handle_greeting"
     priority := 3 },
   { type := .count_query
     patterns := [containsAny ["cuántos", "cuántas", "cantidad", "número", "total"],
                  containsAny ["how many", "count of"]]
     keywords := ["cuántos", "cuántas", "cantidad", "número", "total", "how many", "count"]
     handler := "handle_count_query"
     priority := 2 },
   { type := .data_info
     patterns := [containsAny ["qué datos", "qué información", "datos disponibles"],
                  containsAny ["what data", "available data"]]
     keywords := ["qué datos", "qué información", "datos", "información", "tenemos",
                  "disponibles"]
     handler := "handle_data_info"
     priority := 1 },
   { type := .store_id_query
     patterns := [storeIdPattern, tiendaStoreIdPattern, datosDeTPattern]
     keywords := ["T_Control", "T_Experimento", "tienda id", "store id"]
     handler := "handle_store_id_query"
     priority := 3 }]

/-- Stable insertion (after equal keys) used by the sort model below. -/
def insertIntentAsc (x : Intent) : List Intent → List Intent
  | [] => [x]
  | y :: ys => if y.priority ≤ x.priority then y :: insertIntentAsc x ys else x :: y :: ys

/-- Python sorted(key=priority, reverse=True): CPython reverses, runs the
stable ascending sort, and reverses again, so equal priorities keep their
original relative order (greeting stays ahead of store_id_query). -/
def pySortedByPriorityDesc (l : List Intent) : List Intent :=
  ((l.reverse.foldl (fun acc x => insertIntentAsc x acc) []).reverse)

/-- IntentRouter.classify_intent (intent_router.py 86-108): patterns
first, then keywords, each over the intents in descending priority;
anything else is the unknown intent. -/
def classify_intent (query : String) : IntentType :=
  let query_lower := pyStrip (pyLower query)
  let sorted := pySortedByPriorityDesc intents
  match sorted.find? (fun intent => intent.patterns.any (fun p => p query_lower)) with
  | some intent => intent.type
  | none =>
    match sorted.find? (fun intent =>
        intent.keywords.any (fun k => pyIn k query_lower)) with
    | some intent => intent.type
    | none => .unknown

/-- IntentRouter.handle_greeting (intent_router.py 121-126): a final
answer only for short greetings, None (fall through to the generator)
otherwise. -/
def handle_greeting (query : String) : Option String :=
  if (pyStrip query).length ≤ 15 then
    some "¡Hola! Estoy aquí para ayudarte con el análisis de AB Testing. ¿Qué te gustaría saber sobre los datos?"
  else none

/-- get_data_summary (data_processing.py 62-73). -/
structure DataSummary where
  total_records : Nat
  experiments : List String
  regions : List String
  store_types : List String
  total_users : Nat
  total_conversions : Nat
  total_revenue : ℚ
  avg_conversion_rate : Option ℚ
deriving DecidableEq, Repr

def get_data_summary (d : List Row) : DataSummary :=
  { total_records := d.length
    experiments := pyUnique (d.map (·.experimento))
    regions := pyUnique (d.map (·.region))
    store_types := pyUnique (d.map (·.tipo_tienda))
    total_users := (d.map (·.usuarios)).sum
    total_conversions := (d.map (·.conversiones)).sum
    total_revenue := (d.map (·.revenue)).sum
    avg_conversion_rate := pmean (d.map (·.conversion_rate)) }

/- The count/info/store handlers below render their numbers with toString
instead of Python's thousands-separator formatting; every branch
condition and every interpolated quantity follows the source. -/

def count_users (d : List Row) (ql : String) : String :=
  if pyIn "control" ql then
    "Las tiendas del grupo Control tienen un total de " ++
      toString ((controlData d).map (·.usuarios)).sum ++ " usuarios."
  else if ["experimento a", "experimento_a", "experiment a"].any (fun e => pyIn e ql) then
    let ed := d.filter (fun r => r.experimento == "Experimento_A")
    "El Experimento A tiene " ++ toString ed.length ++
      " tiendas con un total de " ++ toString (ed.map (·.usuarios)).sum ++ " usuarios."
  else if ["experimento", "experiment", "variante"].any (fun e => pyIn e ql) then
    let line := fun (g : String) =>
      "• " ++ g ++ ": " ++
        toString (((d.filter (fun r => r.experimento == g)).map (·.usuarios))).sum ++
        " usuarios"
    "Total de usuarios por experimento:\n" ++ line "Experimento_A" ++ "\n" ++
      line "Experimento_B" ++ "\n" ++ line "Experimento_C"
  else
    "En total hay " ++ toString (get_data_summary d).total_users ++
      " usuarios en todo el dataset."

def count_conversions (d : List Row) (ql : String) : String :=
  if pyIn "control" ql then
    "El grupo Control tiene un total de " ++
      toString ((controlData d).map (·.conversiones)).sum ++ " conversiones."
  else
    "En total hay " ++ toString (get_data_summary d).total_conversions ++
      " conversiones en todo el dataset."

/- _count_stores lists per-experiment store counts via value_counts; its
descending-frequency ordering is abstracted to first-occurrence order
(the text never feeds a claim). -/
def count_stores (d : List Row) (ql : String) : String :=
  if pyIn "control" ql then
    "Hay " ++ toString (controlData d).length ++ " tiendas en el grupo Control."
  else if ["experimento a", "experimento_a", "experiment a"].any (fun e => pyIn e ql) then
    "El Experimento A tiene " ++
      toString (d.filter (fun r => r.experimento == "Experimento_A")).length ++ " tiendas."
  else if pyIn "experimento" ql then
    let line := fun (g : String) =>
      "• " ++ g ++ ": " ++ toString (d.filter (fun r => r.experimento == g)).length ++
        " tiendas"
    "Cantidad de tiendas por experimento:\n" ++
      String.intercalate "\n" ((experiment_groups d).map line)
  else
    "El dataset contiene " ++ toString d.length ++ " tiendas en total."

def count_regions (d : List Row) : String :=
  "Hay " ++ toString (get_data_summary d).regions.length ++ " regiones en el dataset: " ++
    String.intercalate ", " (get_data_summary d).regions

def count_store_types (d : List Row) : String :=
  "Hay " ++ toString (get_data_summary d).store_types.length ++ " tipos de tienda: " ++
    String.intercalate ", " (get_data_summary d).store_types

def count_stores_and_users (d : List Row) (ql : String) : String :=
  if pyIn "control" ql then
    "El grupo Control tiene " ++ toString (controlData d).length ++
      " tiendas con un total de " ++ toString ((controlData d).map (·.usuarios)).sum ++
      " usuarios."
  else if ["experimento a", "experimento_a", "experiment a"].any (fun e => pyIn e ql) then
    let ed := d.filter (fun r => r.experimento == "Experimento_A")
    "El Experimento A tiene " ++ toString ed.length ++ " tiendas con un total de " ++
      toString (ed.map (·.usuarios)).sum ++ " usuarios."
  else if ["experimento b", "experimento_b", "experiment b"].any (fun e => pyIn e ql) then
    let ed := d.filter (fun r => r.experimento == "Experimento_B")
    "El Experimento B tiene " ++ toString ed.length ++ " tiendas con un total de " ++
      toString (ed.map (·.usuarios)).sum ++ " usuarios."
  else if ["experimento c", "experimento_c", "experiment c"].any (fun e => pyIn e ql) then
    let ed := d.filter (fun r => r.experimento == "Experimento_C")
    "El Experimento C tiene " ++ toString ed.length ++ " tiendas con un total de " ++
      toString (ed.map (·.usuarios)).sum ++ " usuarios."
  else
    "El dataset contiene " ++ toString d.length ++ " tiendas con " ++
      toString (get_data_summary d).total_users ++ " usuarios en total."

/-- IntentRouter.handle_count_query (intent_router.py 128-152): combined
stores-and-users first, then the count-handler table in insertion order
(usuarios, conversiones, tiendas, regiones, tipos), else a generic total. -/
def handle_count_query (d : List Row) (query : String) : String :=
  let ql := pyLower query
  if (pyIn "tienda" ql || pyIn "store" ql) && (pyIn "usuario" ql || pyIn "user" ql) then
    count_stores_and_users d ql
  else if pyIn "usuarios" ql || pyIn "user" ql then count_users d ql
  else if pyIn "conversiones" ql then count_conversions d ql
  else if pyIn "tiendas" ql then count_stores d ql
  else if pyIn "regiones" ql then count_regions d
  else if pyIn "tipos" ql then count_store_types d
  else
    "El dataset contiene " ++ toString d.length ++ " tiendas con " ++
      toString (get_data_summary d).total_users ++ " usuarios y " ++
      toString (get_data_summary d).total_conversions ++ " conversiones en total."

/-- IntentRouter.handle_data_info (intent_router.py 154-164). -/
def handle_data_info (d : List Row) : String :=
  "Datos disponibles en el dataset:\n• " ++ toString d.length ++
    " registros de tiendas\n• Experimentos: " ++
    String.intercalate ", " (get_data_summary d).experiments ++
    "\n• Regiones: " ++ String.intercalate ", " (get_data_summary d).regions ++
    "\n• Tipos de tienda: " ++
    String.intercalate ", " (get_data_summary d).store_types ++
    "\n• Total usuarios: " ++ toString (get_data_summary d).total_users ++
    "\n• Total conversiones: " ++ toString (get_data_summary d).total_conversions ++
    "\n• Revenue total: $" ++ toString (get_data_summary d).total_revenue

/-- The leftmost match of the case-sensitive store-id regex in the
original (unlowered) query, as extracted by re.search().group(0). -/
def storeIdHere (t : List Char) : Option (List Char)
  :=
  if listStartsWith "T_Control_".toList t && threeDigits (t.drop 10) then
    some ("T_Control_".toList ++ (t.drop 10).take 3)
  else if listStartsWith "T_Experimento_".toList t then
    match t.drop 14 with
    | v :: '_' :: rest =>
      if (v = 'A' || v = 'B' || v = 'C') && threeDigits rest then
        some ("T_Experimento_".toList ++ [v, '_'] ++ rest.take 3)
      else none
    | _ => none
  else none

def findStoreId : List Char → Option String
  | [] => none
  | c :: cs =>
    match storeIdHere (c :: cs) with
    | some m => some ⟨m⟩
    | none => findStoreId cs

/-- IntentRouter.handle_store_id_query (intent_router.py 166-193). -/
def handle_store_id_query (d : List Row) (query : String) : Option String :=
  match findStoreId query.toList with
  | some store_id =>
    match d.filter (fun r => r.tienda_id == store_id) with
    | [] => some ("No se encontraron datos para la tienda " ++ store_id ++ ".")
    | row :: _ =>
      some ("Datos de la tienda " ++ store_id ++ ":\n• Experimento: " ++
        row.experimento ++ "\n• Región: " ++ row.region ++
        "\n• Tipo de tienda: " ++ row.tipo_tienda ++
        "\n• Usuarios: " ++ toString row.usuarios ++
        "\n• Conversiones: " ++ toString row.conversiones ++
        "\n• Revenue: $" ++ toString row.revenue ++
        "\n• Conversion Rate: " ++ toString row.conversion_rate ++ "%")
  | none => none

/-- IntentRouter.route_query (intent_router.py 110-119): classify, then
dispatch to the single handler of the classified intent; the unknown
handler returns None. -/
def route_query (d : List Row) (query : String) : Option String :=
  match classify_intent query with
  | .greeting => handle_greeting query
  | .count_query => some (handle_count_query d query)
  | .data_info => some (handle_data_info d)
  | .store_id_query => handle_store_id_query d query
  | .unknown => none

/-- The first stage of ABTestingChatbotV2.generate_response
(chatbot_v2.py 83-115): a truthy router answer is returned immediately,
anything else falls through to the full Query Engine + Statistics Engine
+ generator pipeline, which starts by extracting filters.  Python
truthiness makes the empty string fall through too (no handler emits
one). -/
inductive PipelineStep where
  | routed (answer : String)
  | fullPipeline (filters : Filters)
deriving DecidableEq, Repr

def generate_response_path (d : List Row) (query : String) : PipelineStep :=
  match route_query d query with
  | some s => if s == "" then .fullPipeline (extract_filters_from_query query)
              else .routed s
  | none => .fullPipeline (extract_filters_from_query query)

/-! ### Theorems -/

theorem listContains_of_listStartsWith {n h : List Char}
    (hs : listStartsWith n h = true) : listContains n h = true := by
  cases h with
  | nil => cases n with
    | nil => rfl
    | cons a as => simp [listStartsWith] at hs
  | cons c cs => simp [listContains, hs]

/-- "este" occurs inside "oeste", so any query containing "oeste" also
contains "este". -/
theorem pyIn_este_of_pyIn_oeste (ql : String) (h : pyIn "oeste" ql = true) :
    pyIn "este" ql = true := by
  unfold pyIn at h ⊢
  have ho : "oeste".toList = 'o' :: "este".toList := rfl
  rw [ho] at h
  generalize "este".toList = n at h ⊢
  generalize ql.toList = l at h ⊢
  induction l with
  | nil => simp [listContains, List.isEmpty] at h
  | cons c cs ih =>
    simp only [listContains, Bool.or_eq_true] at h ⊢
    rcases h with h | h
    · simp only [listStartsWith, Bool.and_eq_true, decide_eq_true_eq] at h
      exact Or.inr (listContains_of_listStartsWith h.2)
    · exact Or.inr (ih h)

/-- C7: extract_filters on "tiendas control en la región este" yields exactly
{experimento ↦ Control, region ↦ Este}; the mapping is empty when no keyword
rule matches; and the first matching rule wins per field (in particular the
presence of "control" fixes experimento to "Control" regardless of other
experiment keywords, and the presence of "este" fixes region to "Este"). -/
theorem c7_extract_filters :
    extract_filters_from_query "tiendas control en la región este" =
      { experimento := some "Control", region := some "Este", tipo_tienda := none } ∧
    (∀ q : String,
      pyIn "control" (pyLower q) = false → pyIn "experimento" (pyLower q) = false →
      pyIn "variante" (pyLower q) = false →
      pyIn "este" (pyLower q) = false → pyIn "norte" (pyLower q) = false →
      pyIn "sur" (pyLower q) = false → pyIn "oeste" (pyLower q) = false →
      pyIn "mall" (pyLower q) = false → pyIn "street" (pyLower q) = false →
      pyIn "calle" (pyLower q) = false → pyIn "outlet" (pyLower q) = false →
      extract_filters_from_query q = { experimento := none, region := none, tipo_tienda := none }) ∧
    (∀ q : String, pyIn "control" (pyLower q) = true →
      (extract_filters_from_query q).experimento = some "Control") ∧
    (∀ q : String, pyIn "este" (pyLower q) = true →
      (extract_filters_from_query q).region = some "Este")
    := by
  refine ⟨by decide, ?_, ?_, ?_⟩
  · intro q h1 h2 h3 h4 h5 h6 h7 h8 h9 h10 h11
    simp only [extract_filters_from_query, regionKeywords, detectRegion,
      h1, h2, h3, h4, h5, h6, h7, h8, h9, h10, h11]
    decide
  · intro q h1
    simp only [extract_filters_from_query, h1, if_true]
  · intro q h4
    simp only [extract_filters_from_query, regionKeywords, detectRegion, h4, if_true]
    decide

/-- Witness for c7_extract_filters: its hypotheses are satisfiable, shown at
the concrete inputs "zzz" (no rule matches) and "control variante este". -/
theorem c7_extract_filters_witness :
    extract_filters_from_query "zzz" =
      { experimento := none, region := none, tipo_tienda := none } ∧
    (extract_filters_from_query "control variante este").experimento = some "Control" ∧
    (extract_filters_from_query "control variante este").region = some "Este" := by
  refine ⟨?_, ?_, ?_⟩
  · exact c7_extract_filters.2.1 "zzz" (by decide) (by decide) (by decide) (by decide)
      (by decide) (by decide) (by decide) (by decide) (by decide) (by decide) (by decide)
  · exact c7_extract_filters.2.2.1 "control variante este" (by decide)
  · exact c7_extract_filters.2.2.2 "control variante este" (by decide)

/-- C10: the region loop tests "este" before "oeste" and "este" is a substring
of "oeste", so every query mentioning Oeste is assigned region "Este", and
the mapping {region ↦ Oeste} is never produced for any input. -/
theorem c10_oeste_never_detected :
    (∀ q : String, (extract_filters_from_query q).region ≠ some "Oeste") ∧
    (∀ q : String, pyIn "oeste" (pyLower q) = true →
      (extract_filters_from_query q).region = some "Este") := by
  constructor
  · intro q
    show (detectRegion regionKeywords (pyLower q)) ≠ some "Oeste"
    unfold regionKeywords detectRegion
    by_cases h1 : pyIn "este" (pyLower q) = true
    · rw [if_pos h1]
      decide
    · rw [if_neg h1]
      unfold detectRegion
      by_cases h2 : pyIn "norte" (pyLower q) = true
      · rw [if_pos h2]
        decide
      · rw [if_neg h2]
        unfold detectRegion
        by_cases h3 : pyIn "sur" (pyLower q) = true
        · rw [if_pos h3]
          decide
        · rw [if_neg h3]
          unfold detectRegion
          by_cases h4 : pyIn "oeste" (pyLower q) = true
          · exact absurd (pyIn_este_of_pyIn_oeste _ h4) h1
          · rw [if_neg h4]
            exact fun hc => Option.noConfusion hc
  · intro q h
    have h1 := pyIn_este_of_pyIn_oeste _ h
    show (detectRegion regionKeywords (pyLower q)) = some "Este"
    unfold regionKeywords detectRegion
    rw [if_pos h1]
    decide

/-- Witness for c10_oeste_never_detected at the concrete query
"tiendas de la región oeste". -/
theorem c10_oeste_never_detected_witness :
    (extract_filters_from_query "tiendas de la región oeste").region = some "Este" :=
  c10_oeste_never_detected.2 "tiendas de la región oeste" (by decide)

/-- On an empty pending-segment stack, one step of the aquicksort main
loop on a segment of at most 16 elements is exactly the insertion-sort
block. -/
theorem aqsLoop_small (v : List (Option Fv)) (fuel pl pr : Nat) (dl : Int)
    (t : List Nat) (h : ¬ npySmallQuicksort < pr - pl) :
    aqsLoop v (fuel + 1) t [] pl pr dl = ainsRange v t pl pr := by
  simp only [aqsLoop, if_neg h]

/-- C3 (corrected): get_top_performers sorts with pandas sort_values in
its default quicksort kind, numpy's introsort argsort, which is NOT
stable in general: only segments of at most SMALL_QUICKSORT + 1 = 16
elements are handed to the stable insertion sort, so an argsort of a
column of at most 16 values is the single stable insertion-sort pass.
On the claim's four-store dataset with revenues [10,50,30,50], metric
revenue, direction desc, limit 3, the two 50-revenue rows do come first
in their original relative order, then the 30-revenue row. -/
theorem c3_top_performers_quicksort :
    get_top_performers c3Data "revenue" "desc" 3 [] =
      [toTPResult c3r1, toTPResult c3r3, toTPResult c3r2] ∧
    (∀ v : List (Option Fv), v.length ≤ 16 →
      npyAquicksort v = ainsRange v (List.range v.length) 0 (v.length - 1)) := by
  constructor
  · decide
  · intro v h
    show aqsLoop v (2 * v.length + 3 + 1) (List.range v.length) [] 0
      (v.length - 1) (2 * Nat.log2 v.length) = _
    rw [aqsLoop_small]
    simp only [npySmallQuicksort]
    omega

/-- Counterexample to C3 as stated: on a 17-store dataset, one element
past numpy's insertion-sort cutoff, sorting by revenue descending with
limit 8 returns the 50-revenue rows TB00, TB01, then TB14, TB12, TB11,
TB10, TB09, TB08: the block of equal 50 revenues at original positions
8..14 comes out in reversed relative order, where a stable sort
preserving original insertion order on ties would return TB08, TB09,
TB10, TB11, TB12, TB14 after TB00, TB01. -/
theorem c3_counterexample :
    get_top_performers c3bData "revenue" "desc" 8 [] =
      [toTPResult (c3bRow "TB00" 50), toTPResult (c3bRow "TB01" 50),
       toTPResult (c3bRow "TB14" 50), toTPResult (c3bRow "TB12" 50),
       toTPResult (c3bRow "TB11" 50), toTPResult (c3bRow "TB10" 50),
       toTPResult (c3bRow "TB09" 50), toTPResult (c3bRow "TB08" 50)] ∧
    c3bData.get? 8 = some (c3bRow "TB08" 50) ∧
    c3bData.get? 14 = some (c3bRow "TB14" 50) :=
  ⟨by decide, by decide, by decide⟩

/-- C4 (corrected): an unrecognized metric name is not rejected with an
InvalidMetricError (no such error kind exists in the code); sort_values
raises a KeyError inside the try block, the bare except handler prints it,
and an empty result list is returned to the caller. -/
theorem c4_unknown_metric_swallowed :
    ∀ (d : List Row) (metric ord : String) (lim : Nat) (fs : List (String × Fv)),
      isColumn metric = false →
      get_top_performers d metric ord lim fs = [] := by
  intro d metric ord lim fs h
  simp [get_top_performers, h]

/-- Counterexample to C4 as stated: on a nonempty dataset, the unknown
metric name "cnv" makes get_top_performers return an empty result set
normally, instead of failing with an InvalidMetricError. -/
theorem c4_counterexample :
    isColumn "cnv" = false ∧ 0 < c3Data.length ∧
      get_top_performers c3Data "cnv" "desc" 5 [] = [] := by
  refine ⟨by decide, by decide, by decide⟩

/-- Witness for c4_unknown_metric_swallowed at the concrete metric "cnv". -/
theorem c4_unknown_metric_swallowed_witness :
    get_top_performers c3Data "cnv" "asc" 2 [] = [] :=
  c4_unknown_metric_swallowed c3Data "cnv" "asc" 2 [] (by decide)

theorem chi2_contingency_ne_config (nl : NumLib) (a b c d : ℤ) :
    chi2_contingency nl a b c d ≠ .error .configurationError := by
  intro h
  simp only [chi2_contingency] at h
  split_ifs at h <;> simp at h

theorem perform_statistical_test_ne_config (nl : NumLib) (c e : List Row) :
    perform_statistical_test nl c e ≠ .error .configurationError := by
  intro h
  simp only [perform_statistical_test] at h
  split at h
  · rename_i err heq
    injection h with h2
    rw [h2] at heq
    exact chi2_contingency_ne_config nl _ _ _ _ heq
  · exact Except.noConfusion h

theorem analyzeGroup_ne_config (nl : NumLib) (d : List Row) (g : String) :
    analyzeGroup nl d g ≠ .error .configurationError := by
  intro h
  simp only [analyzeGroup] at h
  split at h
  · rename_i err heq
    injection h with h2
    rw [h2] at heq
    exact perform_statistical_test_ne_config nl _ _ heq
  · exact Except.noConfusion h

theorem mapME_ne_config (f : α → Except AnalyticsError β)
    (hf : ∀ x, f x ≠ .error .configurationError) :
    ∀ l : List α, mapME f l ≠ .error .configurationError := by
  intro l
  induction l with
  | nil => intro h; exact Except.noConfusion h
  | cons x xs ih =>
    intro h
    simp only [mapME] at h
    split at h
    · rename_i err heq
      injection h with h2
      rw [h2] at heq
      exact hf x heq
    · rename_i y heq
      split at h
      · rename_i err heq2
        injection h with h2
        rw [h2] at heq2
        exact ih heq2
      · exact Except.noConfusion h

theorem generate_summary_multi_ne_config (control : GroupMetrics)
    (exps : List (String × ExperimentResult)) :
    generate_summary_multi control exps ≠ .error .configurationError := by
  intro h
  simp only [generate_summary_multi] at h
  split at h
  · rename_i err heq
    injection h with h2
    rw [h2] at heq
    cases exps with
    | nil => simp [pyMaxBy] at heq
    | cons x xs => simp [pyMaxBy] at heq
  · exact Except.noConfusion h

theorem analyze_ne_configurationError :
    ∀ (nl : NumLib) (d : List Row),
      analyze_ab_test_results nl d ≠ .error .configurationError := by
  intro nl d h
  simp only [analyze_ab_test_results] at h
  split at h
  · rename_i err heq
    injection h with h2
    rw [h2] at heq
    exact mapME_ne_config _ (analyzeGroup_ne_config nl d) _ heq
  · rename_i exps heq
    split at h
    · rename_i err heq2
      injection h with h2
      rw [h2] at heq2
      exact generate_summary_multi_ne_config _ _ heq2
    · exact Except.noConfusion h

/-- C5 (corrected): analyze_ab_test_results performs no control-group
validation and can never fail with a ConfigurationError, for any dataset
(in particular one whose control partition is empty) and any numeric
collaborator.  Datasets lacking a control partition instead either crash
with a ValueError raised deep inside the chi-square routine or even
produce a NaN-laden report (see the counterexample). -/
theorem c5_no_configuration_error :
    ∀ (nl : NumLib) (d : List Row),
      isConfigurationError (analyze_ab_test_results nl d) = false := by
  intro nl d
  cases hm : analyze_ab_test_results nl d with
  | ok r => rfl
  | error err =>
    cases err with
    | valueError msg => rfl
    | configurationError => exact absurd hm (analyze_ne_configurationError nl d)

/-- Counterexample to C5 as stated: on a dataset whose control partition
is empty, the analysis does not fail with a ConfigurationError — it
aborts with the scipy ValueError for a zero expected frequency; and on
the degenerate all-zero variant it even returns a report. -/
theorem c5_counterexample :
    controlData c5Data = [] ∧
    analyze_ab_test_results dummyNumLib c5Data =
      .error (.valueError
        "The internally computed table of expected frequencies has a zero element.") ∧
    controlData c5ZeroData = [] ∧
    (analyze_ab_test_results dummyNumLib c5ZeroData).isOk = true :=
  ⟨by decide, by decide, by decide, by decide⟩

/-! Support for the lift-formula claim. -/

theorem mem_of_mem_pyUniqueAux :
    ∀ (l : List String) (seen : List String) (x : String),
      x ∈ pyUniqueAux seen l → x ∈ l := by
  intro l
  induction l with
  | nil => intro seen x h; cases h
  | cons a as ih =>
    intro seen x h
    simp only [pyUniqueAux] at h
    by_cases hs : seen.contains a
    · rw [if_pos hs] at h
      exact List.mem_cons_of_mem a (ih seen x h)
    · rw [if_neg hs] at h
      rcases List.mem_cons.mp h with h1 | h2
      · rw [h1]
        exact List.mem_cons_self _ _
      · exact List.mem_cons_of_mem a (ih (a :: seen) x h2)

theorem mem_of_mem_pyUnique {l : List String} {x : String}
    (h : x ∈ pyUnique l) : x ∈ l :=
  mem_of_mem_pyUniqueAux l [] x h

theorem exists_row_of_mem_experiment_groups {d : List Row} {g : String}
    (h : g ∈ experiment_groups d) : ∃ r ∈ d, r.experimento = g := by
  have h1 := mem_of_mem_pyUnique h
  rcases List.mem_map.mp h1 with ⟨r, hr, hrg⟩
  exact ⟨r, (List.mem_filter.mp hr).1, hrg⟩

theorem mapME_ok_mem {f : α → Except AnalyticsError β} :
    ∀ {l : List α} {ys : List β}, mapME f l = .ok ys → ∀ y ∈ ys, ∃ x ∈ l, f x = .ok y := by
  intro l
  induction l with
  | nil =>
    intro ys h y hy
    simp only [mapME, Except.ok.injEq] at h
    subst h
    cases hy
  | cons x xs ih =>
    intro ys h y hy
    simp only [mapME] at h
    cases hx : f x with
    | error err => rw [hx] at h; cases h
    | ok y1 =>
      rw [hx] at h
      cases hm : mapME f xs with
      | error err => rw [hm] at h; cases h
      | ok ys1 =>
        rw [hm] at h
        simp only [Except.ok.injEq] at h
        subst h
        rcases List.mem_cons.mp hy with rfl | h2
        · exact ⟨x, List.mem_cons_self x xs, hx⟩
        · rcases ih hm y h2 with ⟨x2, hx2, hfx2⟩
          exact ⟨x2, List.mem_cons_of_mem x hx2, hfx2⟩

/-- C2: in every successful analysis of a dataset with a nonempty control
partition, every reported non-control group carries
conversion_lift = (group mean CR − control mean CR)/control mean CR × 100
and revenue_lift likewise on revenue totals, each defined as 0 exactly in
the branch where the control baseline is 0. -/
theorem c2_lift_formula :
    ∀ (nl : NumLib) (d : List Row) (r : AnalysisReport),
      analyze_ab_test_results nl d = .ok r →
      ∀ g e, (g, e) ∈ r.experiments →
      controlData d ≠ [] →
      liftClaim d g e := by
  intro nl d r hr g e hmem hc
  simp only [analyze_ab_test_results] at hr
  split at hr
  · exact Except.noConfusion hr
  · rename_i exps heqm
    split at hr
    · exact Except.noConfusion hr
    · rename_i s heqs
      injection hr with h2
      subst h2
      have hmem2 : (g, e) ∈ exps := hmem
      rcases mapME_ok_mem heqm (g, e) hmem2 with ⟨x, hx, hfx⟩
      simp only [analyzeGroup] at hfx
      split at hfx
      · exact Except.noConfusion hfx
      · rename_i st hp
        injection hfx with h3
        injection h3 with hg he
        subst hg
        subst he
        have hc0 : (controlData d).length ≠ 0 :=
          fun hz => hc (List.length_eq_zero.mp hz)
        have hcavg : (calculate_metrics (controlData d)).avg_conversion_rate =
            some (controlAvgCR d) := by
          show pmean ((controlData d).map (·.conversion_rate)) = _
          simp only [pmean, List.length_map]
          rw [if_neg hc0]
          rfl
        rcases exists_row_of_mem_experiment_groups hx with ⟨row0, hrow0, hrg⟩
        have hgdne : row0 ∈ d.filter (fun row => row.experimento == x) :=
          List.mem_filter.mpr ⟨hrow0, by simp [hrg]⟩
        have hg0 : (d.filter (fun row => row.experimento == x)).length ≠ 0 :=
          fun hz => List.ne_nil_of_mem hgdne (List.length_eq_zero.mp hz)
        have hgavg : (calculate_metrics
            (d.filter (fun row => row.experimento == x))).avg_conversion_rate =
            some (groupAvgCR d x) := by
          show pmean ((d.filter (fun row => row.experimento == x)).map
            (·.conversion_rate)) = _
          simp only [pmean, List.length_map]
          rw [if_neg hg0]
          rfl
        have hconv : ∀ q : Option ℚ,
            calculate_lift q (some (controlAvgCR d)) =
              if controlAvgCR d = 0 then some 0
              else match q with
                | none => none
                | some ev => some ((ev - controlAvgCR d) / controlAvgCR d * 100) := by
          intro q
          rfl
        refine ⟨?_, ?_, ?_, ?_⟩
        · intro h0
          show calculate_lift
            (calculate_metrics (d.filter (fun row => row.experimento == x))).avg_conversion_rate
            (calculate_metrics (controlData d)).avg_conversion_rate = some 0
          rw [hcavg, hgavg, hconv, if_pos h0]
        · intro h0
          show calculate_lift
            (calculate_metrics (d.filter (fun row => row.experimento == x))).avg_conversion_rate
            (calculate_metrics (controlData d)).avg_conversion_rate =
            some ((groupAvgCR d x - controlAvgCR d) / controlAvgCR d * 100)
          rw [hcavg, hgavg, hconv, if_neg h0]
        · intro h0
          show calculate_lift
            (some (calculate_metrics (d.filter (fun row => row.experimento == x))).total_revenue)
            (some (calculate_metrics (controlData d)).total_revenue) = some 0
          show (if (calculate_metrics (controlData d)).total_revenue = 0 then some 0
            else some (((calculate_metrics
              (d.filter (fun row => row.experimento == x))).total_revenue -
                (calculate_metrics (controlData d)).total_revenue) /
              (calculate_metrics (controlData d)).total_revenue * 100)) = some 0
          rw [if_pos (show (calculate_metrics (controlData d)).total_revenue = 0 from h0)]
        · intro h0
          show calculate_lift
            (some (calculate_metrics (d.filter (fun row => row.experimento == x))).total_revenue)
            (some (calculate_metrics (controlData d)).total_revenue) =
            some ((groupRev d x - controlRev d) / controlRev d * 100)
          show (if (calculate_metrics (controlData d)).total_revenue = 0 then some 0
            else some (((calculate_metrics
              (d.filter (fun row => row.experimento == x))).total_revenue -
                (calculate_metrics (controlData d)).total_revenue) /
              (calculate_metrics (controlData d)).total_revenue * 100)) = _
          rw [if_neg (show ¬ (calculate_metrics (controlData d)).total_revenue = 0 from h0)]
          rfl

/-- Witness for c2_lift_formula at the concrete dataset c2Data and its
Experimento_A entry. -/
theorem c2_lift_formula_witness : liftClaim c2Data "Experimento_A" c2Entry :=
  c2_lift_formula dummyNumLib c2Data c2Report (by decide) "Experimento_A" c2Entry
    (by decide) (by decide)

/-! Support for the segment-breakdown claim. -/

theorem mem_pyUniqueAux_iff :
    ∀ (l seen : List String) (x : String),
      x ∈ pyUniqueAux seen l ↔ (x ∈ l ∧ x ∉ seen) := by
  intro l
  induction l with
  | nil => intro seen x; simp [pyUniqueAux]
  | cons a as ih =>
    intro seen x
    simp only [pyUniqueAux]
    by_cases hs : seen.contains a
    · rw [if_pos hs]
      rw [ih]
      have ha : a ∈ seen := by
        have := List.elem_iff.mp hs
        exact this
      constructor
      · rintro ⟨hx, hnx⟩
        exact ⟨List.mem_cons_of_mem a hx, hnx⟩
      · rintro ⟨hx, hnx⟩
        rcases List.mem_cons.mp hx with h1 | h1
        · exact absurd (h1 ▸ ha) hnx
        · exact ⟨h1, hnx⟩
    · rw [if_neg hs]
      have ha : a ∉ seen := fun hmem => hs (List.elem_iff.mpr hmem)
      constructor
      · intro hx
        rcases List.mem_cons.mp hx with h1 | h1
        · exact ⟨h1 ▸ List.mem_cons_self a as, h1 ▸ ha⟩
        · rcases (ih (a :: seen) x).mp h1 with ⟨h2, h3⟩
          exact ⟨List.mem_cons_of_mem a h2,
                 fun hmem => h3 (List.mem_cons_of_mem a hmem)⟩
      · rintro ⟨hx, hnx⟩
        rcases List.mem_cons.mp hx with h1 | h1
        · rw [h1]
          exact List.mem_cons_self a _
        · by_cases hxa : x = a
          · rw [hxa]
            exact List.mem_cons_self a _
          · refine List.mem_cons_of_mem a ((ih (a :: seen) x).mpr ⟨h1, ?_⟩)
            intro hmem
            rcases List.mem_cons.mp hmem with h2 | h2
            · exact hxa h2
            · exact hnx h2

theorem mem_pyUnique_iff {l : List String} {x : String} :
    x ∈ pyUnique l ↔ x ∈ l := by
  rw [pyUnique, mem_pyUniqueAux_iff]
  simp

/-- Characterization of the segment loops: a key is emitted iff its
Control subset and its Experimento_A subset are both nonempty, and the
emitted value is exactly the segment dict of those two subsets. -/
theorem seg_filterMap_mem (d : List Row) (keyOf : Row → String)
    (ks : List String) (k : String) (s : SegmentResult) :
    ((k, s) ∈ ks.filterMap (fun key =>
      let seg_data := d.filter (fun r => keyOf r == key)
      let ctrl := seg_data.filter (fun r => r.experimento == "Control")
      let expr := seg_data.filter (fun r => r.experimento == "Experimento_A")
      if 0 < ctrl.length ∧ 0 < expr.length then some (key, segmentEntry ctrl expr)
      else none)) ↔
    (k ∈ ks ∧
     0 < ((d.filter (fun r => keyOf r == k)).filter
       (fun r => r.experimento == "Control")).length ∧
     0 < ((d.filter (fun r => keyOf r == k)).filter
       (fun r => r.experimento == "Experimento_A")).length ∧
     s = segmentEntry
       ((d.filter (fun r => keyOf r == k)).filter (fun r => r.experimento == "Control"))
       ((d.filter (fun r => keyOf r == k)).filter
         (fun r => r.experimento == "Experimento_A"))) := by
  rw [List.mem_filterMap]
  constructor
  · rintro ⟨a, ha, hfa⟩
    dsimp only at hfa
    by_cases hcond :
        0 < ((d.filter (fun r => keyOf r == a)).filter
          (fun r => r.experimento == "Control")).length ∧
        0 < ((d.filter (fun r => keyOf r == a)).filter
          (fun r => r.experimento == "Experimento_A")).length
    · rw [if_pos hcond] at hfa
      injection hfa with h4
      injection h4 with hk hs2
      subst hk
      exact ⟨ha, hcond.1, hcond.2, hs2.symm⟩
    · rw [if_neg hcond] at hfa
      exact Option.noConfusion hfa
  · rintro ⟨hk, h1, h2, hs2⟩
    refine ⟨k, hk, ?_⟩
    dsimp only
    rw [if_pos ⟨h1, h2⟩, hs2]

/-- C6 (corrected): the segment breakdowns compare Control against the
fixed group Experimento_A only.  For each candidate segment value k of
region (respectively store type), a segment is reported iff the segment
has at least one Control row and at least one Experimento_A row — rows of
other non-control groups neither qualify a segment nor enter it — and the
reported value is built from exactly those two subsets (means, lift,
revenue totals, sample sizes); otherwise the segment is omitted. -/
theorem c6_segment_breakdown :
    ∀ (d : List Row) (k : String),
      ((∃ s, (k, s) ∈ analyze_by_region d) ↔
        ((∃ r0 ∈ d, r0.region = k) ∧
         0 < ((d.filter (fun r => r.region == k)).filter
           (fun r => r.experimento == "Control")).length ∧
         0 < ((d.filter (fun r => r.region == k)).filter
           (fun r => r.experimento == "Experimento_A")).length)) ∧
      (∀ s, (k, s) ∈ analyze_by_region d →
        s = segmentEntry
          ((d.filter (fun r => r.region == k)).filter
            (fun r => r.experimento == "Control"))
          ((d.filter (fun r => r.region == k)).filter
            (fun r => r.experimento == "Experimento_A"))) ∧
      ((∃ s, (k, s) ∈ analyze_by_store_type d) ↔
        ((∃ r0 ∈ d, r0.tipo_tienda = k) ∧
         0 < ((d.filter (fun r => r.tipo_tienda == k)).filter
           (fun r => r.experimento == "Control")).length ∧
         0 < ((d.filter (fun r => r.tipo_tienda == k)).filter
           (fun r => r.experimento == "Experimento_A")).length)) ∧
      (∀ s, (k, s) ∈ analyze_by_store_type d →
        s = segmentEntry
          ((d.filter (fun r => r.tipo_tienda == k)).filter
            (fun r => r.experimento == "Control"))
          ((d.filter (fun r => r.tipo_tienda == k)).filter
            (fun r => r.experimento == "Experimento_A"))) := by
  intro d k
  have hdomr : k ∈ pyUnique (d.map (fun r => r.region)) ↔ ∃ r0 ∈ d, r0.region = k := by
    rw [mem_pyUnique_iff, List.mem_map]
  have hdoms : k ∈ pyUnique (d.map (fun r => r.tipo_tienda)) ↔
      ∃ r0 ∈ d, r0.tipo_tienda = k := by
    rw [mem_pyUnique_iff, List.mem_map]
  have hregIff := fun s => seg_filterMap_mem d (fun r => r.region)
    (pyUnique (d.map (fun r => r.region))) k s
  have hstoIff := fun s => seg_filterMap_mem d (fun r => r.tipo_tienda)
    (pyUnique (d.map (fun r => r.tipo_tienda))) k s
  refine ⟨?_, ?_, ?_, ?_⟩
  · constructor
    · rintro ⟨s, hmem⟩
      rcases (hregIff s).mp hmem with ⟨hk, h1, h2, _⟩
      exact ⟨hdomr.mp hk, h1, h2⟩
    · rintro ⟨hk, h1, h2⟩
      exact ⟨_, (hregIff _).mpr ⟨hdomr.mpr hk, h1, h2, rfl⟩⟩
  · intro s hmem
    exact ((hregIff s).mp hmem).2.2.2
  · constructor
    · rintro ⟨s, hmem⟩
      rcases (hstoIff s).mp hmem with ⟨hk, h1, h2, _⟩
      exact ⟨hdoms.mp hk, h1, h2⟩
    · rintro ⟨hk, h1, h2⟩
      exact ⟨_, (hstoIff _).mpr ⟨hdoms.mpr hk, h1, h2, rfl⟩⟩
  · intro s hmem
    exact ((hstoIff s).mp hmem).2.2.2

/-- Counterexample to C6 as stated: region Norte has a nonempty control
subset and a nonempty non-control subset (of group Experimento_B), yet
the regional breakdown omits the segment entirely. -/
theorem c6_counterexample :
    0 < ((c6Data.filter (fun r => r.region == "Norte")).filter
      (fun r => r.experimento == "Control")).length ∧
    0 < ((c6Data.filter (fun r => r.region == "Norte")).filter
      (fun r => r.experimento != "Control")).length ∧
    analyze_by_region c6Data = [] :=
  ⟨by decide, by decide, by decide⟩

/-- Witness for c6_segment_breakdown: on c2Data the Norte segment is
reported, and its reported value is the Control/Experimento_A subset
statistics. -/
theorem c6_segment_breakdown_witness :
    ∃ s, ("Norte", s) ∈ analyze_by_region c2Data ∧
      s = segmentEntry
        ((c2Data.filter (fun r => r.region == "Norte")).filter
          (fun r => r.experimento == "Control"))
        ((c2Data.filter (fun r => r.region == "Norte")).filter
          (fun r => r.experimento == "Experimento_A")) := by
  rcases (c6_segment_breakdown c2Data "Norte").1.mpr
      ⟨⟨c2rc1, by decide, by decide⟩, by decide, by decide⟩ with ⟨s, hmem⟩
  exact ⟨s, hmem, (c6_segment_breakdown c2Data "Norte").2.1 s hmem⟩

/-- C9: the analysis is a pure function of the record store and the
numeric collaborators: two runs on an unchanged dataset return equal
reports, component by component (group metrics and lifts, significance
results, both segment breakdowns, and the summary data). -/
theorem c9_analysis_deterministic :
    ∀ (nl : NumLib) (d : List Row) (r1 r2 : AnalysisReport),
      analyze_ab_test_results nl d = .ok r1 →
      analyze_ab_test_results nl d = .ok r2 →
      r1 = r2 ∧ r1.control = r2.control ∧ r1.experiments = r2.experiments ∧
        r1.regional_analysis = r2.regional_analysis ∧
        r1.store_type_analysis = r2.store_type_analysis ∧ r1.summary = r2.summary := by
  intro nl d r1 r2 h1 h2
  rw [h1] at h2
  injection h2 with h3
  subst h3
  exact ⟨rfl, rfl, rfl, rfl, rfl, rfl⟩

/-- Witness for c9_analysis_deterministic: two invocations on c2Data. -/
theorem c9_analysis_deterministic_witness :
    c2Report = c2Report ∧ c2Report.control = c2Report.control ∧
      c2Report.experiments = c2Report.experiments ∧
      c2Report.regional_analysis = c2Report.regional_analysis ∧
      c2Report.store_type_analysis = c2Report.store_type_analysis ∧
      c2Report.summary = c2Report.summary :=
  c9_analysis_deterministic dummyNumLib c2Data c2Report c2Report
    (by decide) (by decide)

/-- C1 (code bug, the defect §2 and §9 of the spec call out): for an index
hit whose record id "Control_T_Control_001_0" resolves to a real record
with region Norte, 100 users, 10 conversions, revenue 5000 and conversion
rate 10, semantic_search emits a result whose region is the placeholder
"Unknown" and whose numeric attributes are fabricated zeros; even the
parsed store id "T_Control" differs from the real "T_Control_001".  No
entry is ever dropped and no ResolutionError kind exists in the code. -/
theorem c1_placeholders_emitted :
    semantic_search "tiendas control" 5 c1IndexResult =
      [{ score := 19/20
         experimento := "Control"
         tienda_id := "T_Control"
         region := "Unknown"
         tipo_tienda := "Unknown"
         usuarios := 0
         conversiones := 0
         revenue := 0
         conversion_rate := 0
         description := "Resultado del experimento Control en tienda T_Control" }] ∧
    (c1Row.region ≠ "Unknown" ∧ c1Row.tipo_tienda ≠ "Unknown" ∧
     c1Row.usuarios ≠ 0 ∧ c1Row.conversiones ≠ 0 ∧ c1Row.revenue ≠ 0 ∧
     c1Row.conversion_rate ≠ 0 ∧ c1Row.tienda_id ≠ "T_Control") := by
  refine ⟨by decide, by decide, by decide, by decide, by decide, by decide,
    by decide, by decide⟩

/-- C8: the greeting intent short-circuits only at or below the 15
character threshold.  "Hola" classifies as a greeting and the router
returns the fixed greeting answer, so generate_response returns it
without ever reaching the Query Engine stage of the pipeline; any
greeting-classified query whose stripped length exceeds 15 makes the
greeting handler return no-opinion and the pipeline falls through to the
full Query Engine path. -/
theorem c8_greeting_short_circuit :
    (classify_intent "Hola" = .greeting ∧
     route_query [] "Hola" =
       some "¡Hola! Estoy aquí para ayudarte con el análisis de AB Testing. ¿Qué te gustaría saber sobre los datos?" ∧
     generate_response_path [] "Hola" =
       .routed "¡Hola! Estoy aquí para ayudarte con el análisis de AB Testing. ¿Qué te gustaría saber sobre los datos?") ∧
    (∀ (d : List Row) (q : String),
      classify_intent q = .greeting →
      15 < (pyStrip q).length →
      route_query d q = none ∧
        generate_response_path d q = .fullPipeline (extract_filters_from_query q)) := by
  constructor
  · refine ⟨by decide, by decide, by decide⟩
  · intro d q hcl hlen
    have hroute : route_query d q = none := by
      simp only [route_query, hcl, handle_greeting]
      rw [if_neg (by omega)]
    refine ⟨hroute, ?_⟩
    simp only [generate_response_path, hroute]

/-- Witness for c8_greeting_short_circuit: the 21-character query
"hola, cómo estás hoy?" classifies as a greeting by keyword yet exceeds
the threshold, so it falls through. -/
theorem c8_greeting_short_circuit_witness :
    route_query [] "hola, cómo estás hoy?" = none ∧
      generate_response_path [] "hola, cómo estás hoy?" =
        .fullPipeline (extract_filters_from_query "hola, cómo estás hoy?") :=
  c8_greeting_short_circuit.2 [] "hola, cómo estás hoy?" (by decide) (by decide)

end CbSuperlinked
